import Mathlib

/-!
Verification development for the NexusPrime factory pipeline.

Shallow embedding of the core modules:
* `nexusprime/utils/tokens.py` (usage meter),
* `nexusprime/agents/council.py` (council engine and review response grammar),
* `nexusprime/core/graph.py` (state-machine routing),
* `nexusprime/core/llm_router.py` (agent-to-model mapping and usage normalization),
* `nexusprime/integrations/memory.py` (lesson store, keyword retrieval path).

Python strings are modelled as Lean `String` over their characters (ASCII
case/digit/whitespace predicates mirror the CPython behaviour on the ASCII
range); Python dicts with string keys and integer values are modelled as
association lists read through `pyDictGet` (first binding wins, absent key
yields the default, exactly like `dict.get`).  Network calls are modelled by
an oracle parameter `RouterOracle` mapping (agent name, prompt, system
prompt) to either a response-with-usage or a raised exception message.
-/

set_option maxRecDepth 40000

namespace NexusPrime

/-! ### Python string primitives -/

/-- Python `needle in hay` on the character lists (substring containment). -/
def listContainsAux (needle : List Char) : List Char → Bool
  | [] => needle.isEmpty
  | c :: t => needle.isPrefixOf (c :: t) || listContainsAux needle t

/-- Python `needle in hay` for strings. -/
def pyIn (needle hay : String) : Bool :=
  listContainsAux needle.data hay.data

/-- Python `''.join(filter(str.isdigit, line))`: the digit characters of a
line, in order (ASCII digits). -/
def digitsOf (line : String) : List Char :=
  line.data.filter Char.isDigit

/-- Python `int` on a nonempty string of digits. -/
def natOfDigits (ds : List Char) : Nat :=
  ds.foldl (fun n c => 10 * n + (c.toNat - 48)) 0

/-- Split a character list at every character satisfying `p` (each separator
occurrence opens a new piece, as Python `str.split(sep)` does). -/
def splitWhenChar (p : Char → Bool) : List Char → List (List Char)
  | [] => [[]]
  | c :: t =>
    let r := splitWhenChar p t
    if p c then [] :: r
    else
      match r with
      | [] => [[c]]
      | h :: t2 => (c :: h) :: t2

/-- Python `s.split('\n')`: the lines of a string. -/
def pyLines (s : String) : List String :=
  (splitWhenChar (fun c => c = '\n') s.data).map String.mk

/-- Python `s.upper()` (ASCII). -/
def pyUpper (s : String) : String :=
  String.mk (s.data.map Char.toUpper)

/-- Python `s.lower()` (ASCII). -/
def pyLower (s : String) : String :=
  String.mk (s.data.map Char.toLower)

/-- Python `s.strip()`: drop whitespace from both ends. -/
def pyStrip (s : String) : String :=
  String.mk (((s.data.dropWhile Char.isWhitespace).reverse.dropWhile
    Char.isWhitespace).reverse)

/-- Python `s.split()` (no separator): split on whitespace, dropping empty
pieces (equivalently, split on whitespace runs). -/
def pySplitWs (s : String) : List String :=
  ((splitWhenChar Char.isWhitespace s.data).map String.mk).filter (fun w => w ≠ "")

/-- Python `line.split(':', 1)[1]`: everything after the first colon.
Only reached by the source on lines that do contain a colon. -/
def afterFirstColon (s : String) : String :=
  String.mk (afterFirstCharAux s.data)
where
  afterFirstCharAux : List Char → List Char
    | [] => []
    | c :: t => if c = ':' then t else afterFirstCharAux t

/-- Python `line.split(':')[0]`: everything before the first colon (the whole
string when there is no colon). -/
def beforeFirstColon (s : String) : String :=
  String.mk (s.data.takeWhile (fun c => c ≠ ':'))

/-- Python `str.isupper()` on the ASCII range: at least one letter, and no
lowercase letter. -/
def pyIsUpperStr (s : String) : Bool :=
  s.data.any Char.isAlpha && s.data.all (fun c => !(c.isLower))

/-! ### Usage meter (`utils/tokens.py`) and router usage normalization
(`core/llm_router.py`) -/

/-- Usage dictionaries: string-keyed integer counters. -/
abbrev UsageDict := List (String × Nat)

/-- Python `d.get(k, default)` on an association list. -/
def pyDictGet (d : UsageDict) (k : String) (default : Nat) : Nat :=
  match d.find? (fun p => p.1 == k) with
  | some p => p.2
  | none => default

/-- `update_token_usage` from `utils/tokens.py`: merge token usage from a new
LLM call into cumulative usage (the incoming dict is read through the
Gemini-style field names). -/
def update_token_usage (current_usage new_usage : UsageDict) : UsageDict :=
  [("prompt_tokens", pyDictGet current_usage "prompt_tokens" 0 +
      pyDictGet new_usage "prompt_token_count" 0),
   ("completion_tokens", pyDictGet current_usage "completion_tokens" 0 +
      pyDictGet new_usage "candidates_token_count" 0),
   ("total_tokens", pyDictGet current_usage "total_tokens" 0 +
      pyDictGet new_usage "total_token_count" 0)]

/-- The `usage_formatted` dict built by `GitHubModelsRouter._call_anthropic`
(lines 160-164 of `core/llm_router.py`) from the `input_tokens` and
`output_tokens` reported by the Anthropic API. -/
def anthropicUsageFormatted (input_tokens output_tokens : Nat) : UsageDict :=
  [("prompt_tokens", input_tokens),
   ("completion_tokens", output_tokens),
   ("total_token_count", input_tokens + output_tokens)]

/-- A zeroed cumulative usage dict (the shape used by `utils/status.py`). -/
def zeroUsage : UsageDict :=
  [("prompt_tokens", 0), ("completion_tokens", 0), ("total_tokens", 0)]

/-! ### Settings (`config.py`) -/

/-- The numeric fields of `Settings` read by the state machine; the remaining
fields of `config.py` are credentials and file paths not consulted by the
embedded functions. -/
structure Settings where
  max_feedback_loops : Nat
  dev_quality_threshold : Nat
  prod_quality_threshold : Nat

/-- The default values declared in `config.py`. -/
def defaultSettings : Settings :=
  { max_feedback_loops := 5
    dev_quality_threshold := 75
    prod_quality_threshold := 95 }

/-! ### Review response grammar (`agents/council.py`) -/

/-- A line matching the `CouncilAgent._extract_score` marker test:
`'SCORE:' in line.upper() or 'FINAL_SCORE:' in line.upper()`. -/
def markerLine (line : String) : Bool :=
  pyIn "SCORE:" (pyUpper line) || pyIn "FINAL_SCORE:" (pyUpper line)

/-- `CouncilAgent._extract_score`: scan the lines for a score marker with at
least one digit on the line; otherwise fall back to the digits of the first
200 characters; otherwise the default 70.  Scores are clamped by
`min(100, max(0, ...))`. -/
def extract_score (response : String) : Nat :=
  match (pyLines response).find?
      (fun line => markerLine line && !(digitsOf line).isEmpty) with
  | some line => min 100 (max 0 (natOfDigits (digitsOf line)))
  | none =>
    let ds := digitsOf (response.take 200)
    if ds.isEmpty then 70 else min 100 (max 0 (natOfDigits ds))

/-- Whether any line of the response carries a `SCORE:`/`FINAL_SCORE:`
marker (the condition the spec speaks about). -/
def hasScoreMarker (response : String) : Bool :=
  (pyLines response).any markerLine

/-- Modelled from the spec words for comparison only (section 4.3:
"digits after the marker become the score, clamped to [0,100]"): the digits
strictly after the first `SCORE:` occurrence of the first marker line. -/
def specScoreAfterMarker (response : String) : Option Nat :=
  match (pyLines response).find? markerLine with
  | some line =>
    some (min 100 (natOfDigits (digitsOf (afterFirstColon (pyUpper line)))))
  | none => none

/-- Helper of `CouncilAgent._extract_reasoning`: collect the lines following
the marker line until a line that looks like another all-caps field marker,
skipping blank lines. -/
def collectReasoningParts : List String → List String
  | [] => []
  | next :: rest =>
    if pyIn ":" next && pyIsUpperStr (pyStrip (beforeFirstColon next)) then []
    else if pyStrip next ≠ "" then pyStrip next :: collectReasoningParts rest
    else collectReasoningParts rest

/-- Scan of `CouncilAgent._extract_reasoning`: first line whose uppercase
contains `REASONING:`, joined with its continuation lines. -/
def reasoningFromLines : List String → Option String
  | [] => none
  | line :: rest =>
    if pyIn "REASONING:" (pyUpper line) then
      some (String.intercalate " "
        (pyStrip (afterFirstColon line) :: collectReasoningParts rest))
    else reasoningFromLines rest

/-- `CouncilAgent._extract_reasoning`. -/
def extract_reasoning (response : String) : String :=
  match reasoningFromLines (pyLines response) with
  | some r => r
  | none =>
    match (pyLines response).find? (fun line => 20 < (pyStrip line).length) with
    | some line => (pyStrip line).take 200
    | none => "No reasoning provided"

/-- `CouncilAgent._extract_concerns`. -/
def extract_concerns (response : String) : List String :=
  match (pyLines response).find? (fun line => pyIn "CONCERNS:" (pyUpper line)) with
  | none => []
  | some line =>
    let concerns_text := pyStrip (afterFirstColon line)
    if pyLower concerns_text = "none" then []
    else
      (((splitWhenChar (fun c => c = ',') concerns_text.data).map
        (fun cs => pyStrip (String.mk cs))).filter (fun c => c ≠ ""))

/-! ### Model router (`core/llm_router.py`): agent-to-model mapping -/

/-- The `LLMProvider` enum of `core/llm_router.py`. -/
inductive LLMProvider where
  | CLAUDE_SONNET_4
  | GEMINI_3_PRO
  | GROK_3
  | GPT_5
deriving DecidableEq

/-- The string value of each provider enum member. -/
def LLMProvider.value : LLMProvider → String
  | .CLAUDE_SONNET_4 => "claude-sonnet-4-20250514"
  | .GEMINI_3_PRO => "gemini-3-pro-preview"
  | .GROK_3 => "azureml-xai/grok-3"
  | .GPT_5 => "azure-openai/gpt-5"

/-- `LLMConfig` of `core/llm_router.py` (the temperature, a float tuning
parameter never inspected by the verified functions, is omitted). -/
structure LLMConfig where
  provider : LLMProvider
  max_tokens : Nat := 8192

/-- `GitHubModelsRouter.AGENT_MODEL_MAP` (also aliased as
`AGENT_MODEL_MAPPING`), as the partial map `dict.get` reads. -/
def AGENT_MODEL_MAP (agent_name : String) : Option LLMConfig :=
  if agent_name = "product_owner" then some { provider := .CLAUDE_SONNET_4 }
  else if agent_name = "dev_squad" then some { provider := .CLAUDE_SONNET_4 }
  else if agent_name = "council_claude" then some { provider := .CLAUDE_SONNET_4 }
  else if agent_name = "tech_lead" then some { provider := .GEMINI_3_PRO }
  else if agent_name = "council_gemini" then some { provider := .GEMINI_3_PRO }
  else if agent_name = "council_grok" then some { provider := .GROK_3 }
  else if agent_name = "council_gpt" then some { provider := .GPT_5 }
  else none

/-- A network oracle for `router.call`: maps (agent name, prompt, system
prompt) to either the returned (response text, usage dict) or the message of
a raised exception. -/
abbrev RouterOracle := String → String → String → Except String (String × UsageDict)

/-! ### Council engine (`agents/council.py`) -/

/-- The `ReviewerOpinion` dataclass. -/
structure ReviewerOpinion where
  reviewer : String
  model : String
  score : Nat
  reasoning : String
  concerns : List String
deriving DecidableEq

/-- The fixed reviewer list of `_gather_independent_reviews`:
(reviewer name, agent name) pairs in source order. -/
def reviewers : List (String × String) :=
  [("GPT-5", "council_gpt"), ("Gemini", "council_gemini"), ("Claude", "council_claude")]

/-- `history_context` built from the previous reviews. -/
def historyContext (previous_reviews : List ReviewerOpinion) : String :=
  if previous_reviews.isEmpty then ""
  else
    "\n\nPREVIOUS REVIEW SCORES:" ++
    String.join (previous_reviews.map (fun p =>
      "\n  " ++ p.reviewer ++ ": " ++ toString p.score ++ "/100")) ++
    "\n\nNote: Compare this version with the previous one. Look for improvements and regressions."

/-- `code_context` built from the current generated code. -/
def codeContext (current_code : String) : String :=
  if current_code ≠ "" then
    "\n\nGENERATED CODE (excerpt):\n" ++ current_code.take 800
  else ""

/-- The formatted `review_prompt_template` sent to each reviewer. -/
def reviewPrompt (spec current_code : String) (previous_reviews : List ReviewerOpinion) : String :=
  let code_suffix := if current_code ≠ "" then " and implementation" else ""
  let comparison_criteria :=
    if previous_reviews.isEmpty then ""
    else "\n5. Progress - If this is a revision, are issues from previous reviews addressed?"
  "You are a strict code auditor reviewing a specification" ++ code_suffix ++
  ".\n\nSPECIFICATION:\n" ++ spec.take 1500 ++ "\n" ++ codeContext current_code ++
  "\n" ++ historyContext previous_reviews ++
  "\n\nEVALUATION CRITERIA:\n1. Clarity - Is the specification clear and unambiguous?\n2. Security - Does it address security concerns?\n3. Robustness - Is it designed for reliability and edge cases?\n4. Completeness - Are all necessary details included?\n" ++
  comparison_criteria ++
  "\n\nProvide your review in this exact format:\nSCORE: [integer 0-100]\nREASONING: [1-2 sentences explaining your score]\nCONCERNS: [comma-separated list of specific concerns, or \"None\"]"

/-- The reviewer system prompt of `_gather_independent_reviews`. -/
def reviewSystemPrompt : String :=
  "You are a strict code auditor. Be thorough and critical."

/-- One iteration of the reviewer loop of `_gather_independent_reviews`: call
the router and parse, or substitute the sentinel opinion on an exception. -/
def reviewOne (oracle : RouterOracle) (spec current_code : String)
    (previous_reviews : List ReviewerOpinion) (r : String × String) : ReviewerOpinion :=
  match oracle r.2 (reviewPrompt spec current_code previous_reviews) reviewSystemPrompt with
  | .ok (response, _) =>
    { reviewer := r.1
      model := match AGENT_MODEL_MAP r.2 with
        | some config => config.provider.value
        | none => "unknown"
      score := extract_score response
      reasoning := extract_reasoning response
      concerns := extract_concerns response }
  | .error e =>
    { reviewer := r.1
      model := "error"
      score := 50
      reasoning := "Review failed: " ++ e.take 50
      concerns := ["Review error"] }

/-- `CouncilAgent._gather_independent_reviews`. -/
def gather_independent_reviews (oracle : RouterOracle) (spec current_code : String)
    (previous_reviews : List ReviewerOpinion) : List ReviewerOpinion :=
  reviewers.map (reviewOne oracle spec current_code previous_reviews)

/-- The `opinions_text` summary of `_arbitrate_reviews`. -/
def opinionsText (opinions : List ReviewerOpinion) : String :=
  String.intercalate "\n\n" (opinions.map (fun op =>
    "**" ++ op.reviewer ++ " (" ++ op.model ++ ")**\n" ++
    "Score: " ++ toString op.score ++ "/100\n" ++
    "Reasoning: " ++ op.reasoning ++ "\n" ++
    "Concerns: " ++ String.intercalate ", " op.concerns))

/-- The `arbitration_prompt` of `_arbitrate_reviews`. -/
def arbitrationPrompt (spec : String) (opinions : List ReviewerOpinion) : String :=
  "You are the lead arbitrator in a code review council.\n\nThree expert reviewers have evaluated a specification. Your job is to synthesize their \nopinions and provide a final, definitive quality score.\n\nSPECIFICATION EXCERPT:\n" ++
  spec.take 800 ++ "\n\nREVIEWER OPINIONS:\n" ++ opinionsText opinions ++
  "\n\nConsider:\n- Areas of agreement and disagreement\n- Severity of concerns raised\n- Overall consensus\n- Your own expert judgment\n\nProvide your arbitration in this exact format:\nFINAL_SCORE: [integer 0-100]\nREASONING: [2-3 sentences explaining your final decision]"

/-- The arbitration system prompt. -/
def arbitrationSystemPrompt : String :=
  "You are the lead arbitrator. Synthesize opinions objectively."

/-- `CouncilAgent._arbitrate_reviews`: one further router call; on failure
fall back to the integer-floor average of the reviewer scores. -/
def arbitrate_reviews (oracle : RouterOracle) (spec : String)
    (opinions : List ReviewerOpinion) : Nat × String × UsageDict :=
  match oracle "council_claude" (arbitrationPrompt spec opinions) arbitrationSystemPrompt with
  | .ok (response, usage) =>
    (extract_score response, extract_reasoning response, usage)
  | .error e =>
    ((opinions.map ReviewerOpinion.score).sum / opinions.length,
     "Arbitration failed, using average: " ++ e, [])

/-- Python `f"{s:<n}"`: pad on the right with spaces to width `n`. -/
def padRight (s : String) (n : Nat) : String :=
  s ++ String.mk (List.replicate (n - s.length) ' ')

/-- Python `f"{s:>n}"`: pad on the left with spaces to width `n`. -/
def padLeft (s : String) (n : Nat) : String :=
  String.mk (List.replicate (n - s.length) ' ') ++ s

/-- Python `f"{i:+d}"`: integer with an explicit sign. -/
def pySignedInt (i : Int) : String :=
  if 0 ≤ i then "+" ++ toString i else toString i

/-- A run of `n` copies of a character (Python `ch * n`). -/
def repChar (c : Char) (n : Nat) : String :=
  String.mk (List.replicate n c)

/-- The per-reviewer change lines of the report improvements section. -/
def reportChangeLines (previous_reviews : List ReviewerOpinion)
    (opinions : List ReviewerOpinion) : List String :=
  opinions.foldr (fun op acc =>
    match previous_reviews.find? (fun p => p.reviewer == op.reviewer) with
    | some prev_review =>
      let change : Int := (op.score : Int) - (prev_review.score : Int)
      let change_icon := if 0 < change then "📈" else if change < 0 then "📉" else "➡️"
      (op.reviewer ++ ": " ++ toString prev_review.score ++ " → " ++
        toString op.score ++ " (" ++ pySignedInt change ++ ") " ++ change_icon) :: acc
    | none => acc) []

/-- `CouncilAgent._generate_report`. -/
def generate_report (opinions : List ReviewerOpinion) (final_score : Nat)
    (arbitration : String) (previous_reviews : List ReviewerOpinion) : String :=
  let report_lines :=
    ["\n" ++ repChar '=' 70,
     "COUNCIL MULTI-LLM REVIEW REPORT",
     repChar '=' 70,
     "",
     "INDIVIDUAL REVIEWS:",
     repChar '-' 70] ++
    [padRight "Reviewer" 15 ++ " " ++ padRight "Model" 20 ++ " " ++
       padRight "Score" 8 ++ " " ++ padRight "Concerns" 10,
     repChar '-' 70] ++
    opinions.map (fun op =>
      padRight op.reviewer 15 ++ " " ++ padRight op.model 20 ++ " " ++
      padLeft (toString op.score) 3 ++ "/100   " ++
      padLeft (toString op.concerns.length) 2) ++
    [repChar '-' 70,
     "",
     "DETAILED OPINIONS:",
     repChar '-' 70] ++
    (opinions.map (fun op =>
      ["\n" ++ op.reviewer ++ " (" ++ op.model ++ "):",
       "  Score: " ++ toString op.score ++ "/100",
       "  Reasoning: " ++ op.reasoning,
       "  Concerns: " ++
         (if op.concerns.isEmpty then "None" else String.intercalate ", " op.concerns)])).flatten ++
    (if previous_reviews.isEmpty then []
     else
       ["", repChar '-' 70, "AMÉLIORATIONS / CHANGEMENTS:", repChar '-' 70] ++
       reportChangeLines previous_reviews opinions) ++
    ["",
     repChar '-' 70,
     "FINAL ARBITRATION (Claude):",
     repChar '-' 70,
     "Final Score: " ++ toString final_score ++ "/100",
     "Reasoning: " ++ arbitration,
     repChar '=' 70,
     ""]
  String.intercalate "\n" report_lines

/-- `CouncilAgent._format_concerns_for_dev_squad`. -/
def format_concerns_for_dev_squad (opinions : List ReviewerOpinion) : String :=
  let extra := (opinions.map (fun op =>
    if op.concerns.isEmpty then []
    else
      ("\n" ++ op.reviewer ++ " (" ++ op.model ++ ") - Score: " ++
        toString op.score ++ "/100:") ::
      op.concerns.map (fun concern => "  • " ++ concern) ++
      ["  Raisonnement: " ++ op.reasoning])).flatten
  if extra.isEmpty then
    "Aucun problème majeur identifié. Continuez avec le même niveau de qualité."
  else
    String.intercalate "\n" ("CONCERNS À CORRIGER:" :: extra)

/-! ### Pipeline state (`core/state.py`) and council state update -/

/-- `NexusFactoryState` (`core/state.py`): the TypedDict, with role-tagged
messages and the file-system snapshot as association lists.  `env_mode` is a
string, as the runtime code reads it (the `Literal` annotation is not
enforced at runtime and `route_council` guards every comparison). -/
structure NexusFactoryState where
  messages : List (String × String)
  spec_document : String
  file_system_state : List (String × String)
  env_mode : String
  current_status : String
  feedback_loop_count : Nat
  quality_score : Nat
  review_comments : String
  memory_context : String
  total_tokens : UsageDict
  previous_code : String
  previous_reviews : List ReviewerOpinion

/-- The `state_update` dict returned by `CouncilAgent.execute` (its seven
keys).  Lesson archiving and the GitHub push are external side effects that
do not contribute to the returned update. -/
structure CouncilUpdate where
  current_status : String
  quality_score : Nat
  council_report : String
  feedback_loop_count : Nat
  total_tokens : UsageDict
  review_comments : String
  previous_reviews : List ReviewerOpinion

/-- `CouncilAgent.execute`, as the pure state update it returns (network
calls abstracted by the oracle). -/
def council_execute (oracle : RouterOracle) (state : NexusFactoryState) : CouncilUpdate :=
  let spec := state.spec_document
  let current_code := state.previous_code
  let previous_reviews := state.previous_reviews
  let opinions := gather_independent_reviews oracle spec current_code previous_reviews
  let arb := arbitrate_reviews oracle spec opinions
  let final_score := arb.1
  let arbitration_reasoning := arb.2.1
  let usage_total := arb.2.2
  let report := generate_report opinions final_score arbitration_reasoning previous_reviews
  let new_tokens := update_token_usage state.total_tokens usage_total
  { current_status := "Agent: The Council (Multi-LLM Review Complete)"
    quality_score := final_score
    council_report := report
    feedback_loop_count := state.feedback_loop_count + 1
    total_tokens := new_tokens
    review_comments := format_concerns_for_dev_squad opinions
    previous_reviews := opinions }

/-- The LangGraph merge `{**state, **state_update}` for the council update. -/
def applyCouncilUpdate (state : NexusFactoryState) (u : CouncilUpdate) : NexusFactoryState :=
  { state with
    current_status := u.current_status
    quality_score := u.quality_score
    feedback_loop_count := u.feedback_loop_count
    total_tokens := u.total_tokens
    review_comments := u.review_comments
    previous_reviews := u.previous_reviews }

/-- One completed Review stage execution: run the council and merge its
update into the state. -/
def councilStep (oracle : RouterOracle) (state : NexusFactoryState) : NexusFactoryState :=
  applyCouncilUpdate state (council_execute oracle state)

/-- A sequence of Review stage executions, one oracle per iteration. -/
def councilRun (oracles : List RouterOracle) (state : NexusFactoryState) : NexusFactoryState :=
  oracles.foldl (fun st oracle => councilStep oracle st) state

/-! ### State-machine routing (`core/graph.py`) -/

/-- `route_council` of `core/graph.py`: decide `"approved"`, `"rejected"` or
`"failed"` out of the Review (council) stage. -/
def route_council (settings : Settings) (state : NexusFactoryState) : String :=
  if state.feedback_loop_count > settings.max_feedback_loops then "failed"
  else if state.env_mode = "DEV" ∧ state.quality_score > settings.dev_quality_threshold then
    "approved"
  else if state.env_mode = "PROD" ∧ state.quality_score > settings.prod_quality_threshold then
    "approved"
  else "rejected"

/-- A conditional-edge target of the compiled graph: a named node or `END`. -/
inductive GraphTarget where
  | toNode (name : String)
  | terminal
deriving DecidableEq

/-- The conditional edge map attached to the `council` node in
`build_nexus_factory`: `{"approved": END, "rejected": "dev_squad",
"failed": END}` (the `dev_squad` node is the Generate stage). -/
def councilConditionalEdges (result : String) : Option GraphTarget :=
  if result = "approved" then some .terminal
  else if result = "rejected" then some (.toNode "dev_squad")
  else if result = "failed" then some .terminal
  else none

/-! ### Lesson store (`integrations/memory.py`), keyword-matching path
(`use_embeddings = False`, so stored lessons carry no embedding field) -/

/-- A stored lesson record (schema of `store_lesson`). -/
structure Lesson where
  id : String
  topic : String
  context : String
  outcome : String
  solution : String
  timestamp : String
deriving DecidableEq

/-- `NexusMemory.store_lesson` on the keyword path: append a new lesson and
return (new store, generated id).  The generated uuid and timestamp are
passed in, since they are environment inputs. -/
def store_lesson (lessons : List Lesson) (lesson_id timestamp : String)
    (topic context outcome solution : String) : List Lesson × String :=
  (lessons ++
    [{ id := lesson_id, topic := topic, context := context,
       outcome := outcome, solution := solution, timestamp := timestamp }],
   lesson_id)

/-- `NexusMemory.delete_lesson`: keep the lessons whose id differs; the first
result is the new store, the second whether a removal occurred (the returned
bool), the third whether `_save_memory` ran (it runs exactly in the removal
branch). -/
def delete_lesson (lessons : List Lesson) (lesson_id : String) :
    List Lesson × Bool × Bool :=
  let remaining := lessons.filter (fun l => l.id != lesson_id)
  if remaining.length < lessons.length then (remaining, true, true)
  else (remaining, false, false)

/-- The word set of a string, as `set(s.lower().split())`. -/
def wordSet (s : String) : Finset String :=
  (pySplitWs (pyLower s)).toFinset

/-- The keyword match count of `_retrieve_with_keywords`:
`len(query_words & (topic_words | context_words))`. -/
def lessonMatches (query_words : Finset String) (l : Lesson) : Nat :=
  (query_words ∩ (wordSet l.topic ∪ wordSet l.context)).card

/-- The `relevant_lessons` list: each lesson paired with its match count,
keeping those with at least one match, in store order. -/
def relevantLessons (lessons : List Lesson) (query : String) : List (Lesson × Nat) :=
  (lessons.map (fun l => (l, lessonMatches (wordSet query) l))).filter
    (fun p => 0 < p.2)

/-- Stable insertion step for a descending sort by key: the new element goes
before the first element whose key is ≤ its own. -/
def insertByDesc (key : α → Nat) (x : α) : List α → List α
  | [] => [x]
  | y :: ys => if key y ≤ key x then x :: y :: ys else y :: insertByDesc key x ys

/-- Python `list.sort(key=..., reverse=True)`: the stable descending sort by
key (a stable sort is uniquely determined by the key order, so insertion
sort realises exactly CPython's stable sort). -/
def pySortDesc (key : α → Nat) : List α → List α
  | [] => []
  | x :: xs => insertByDesc key x (pySortDesc key xs)

/-- The `top_lessons` of `_retrieve_with_keywords`: relevant lessons sorted
by match count (descending, stable), truncated to `top_k`. -/
def topLessons (lessons : List Lesson) (query : String) (top_k : Nat) :
    List (Lesson × Nat) :=
  (pySortDesc (fun p => p.2) (relevantLessons lessons query)).take top_k

/-- `NexusMemory._retrieve_with_keywords`. -/
def retrieve_with_keywords (lessons : List Lesson) (query : String) (top_k : Nat) : String :=
  let top := topLessons lessons query top_k
  if top.isEmpty then "No prior lessons found for this topic."
  else
    "### PREVIOUS LESSONS LEARNED:\n" ++
    String.join (top.map (fun p => "- **" ++ p.1.topic ++ "**: " ++ p.1.solution ++ "\n"))

/-- `NexusMemory.retrieve_context` on the keyword path (`use_embeddings`
false): the empty-store sentinel, else keyword retrieval. -/
def retrieve_context_keywords (lessons : List Lesson) (query : String) (top_k : Nat) : String :=
  if lessons.isEmpty then "No prior lessons found."
  else retrieve_with_keywords lessons query top_k

/-! ### Concrete fixtures used by witness theorems -/

/-- A concrete baseline pipeline state. -/
def baseState : NexusFactoryState :=
  { messages := []
    spec_document := ""
    file_system_state := []
    env_mode := "DEV"
    current_status := ""
    feedback_loop_count := 0
    quality_score := 0
    review_comments := ""
    memory_context := ""
    total_tokens := []
    previous_code := ""
    previous_reviews := [] }

/-- An oracle on which every network call raises. -/
def errOracle : RouterOracle := fun _ _ _ => Except.error "network down"

/-! ### Claims -/

/-- C1: for every pipeline state whose feedback-loop counter strictly exceeds
the configured maximum number of feedback loops, `route_council` returns
`"failed"` (the FailedSafety transition), regardless of the quality score and
of the environment mode: the loop-bound check is evaluated before any
score/threshold comparison. -/
theorem route_council_loop_bound_failsafe (settings : Settings)
    (state : NexusFactoryState)
    (h : state.feedback_loop_count > settings.max_feedback_loops) :
    route_council settings state = "failed" := by
  unfold route_council
  rw [if_pos h]

/-- Witness for C1: DEV mode, loop count 6, configured maximum 5, score 99
still routes to `"failed"`. -/
theorem route_council_loop_bound_failsafe_witness :
    ({ baseState with feedback_loop_count := 6, quality_score := 99
      } : NexusFactoryState).feedback_loop_count >
      defaultSettings.max_feedback_loops ∧
    route_council defaultSettings
      { baseState with feedback_loop_count := 6, quality_score := 99 } = "failed" :=
  ⟨by decide,
   route_council_loop_bound_failsafe defaultSettings
     { baseState with feedback_loop_count := 6, quality_score := 99 } (by decide)⟩

/-- C2: for every pipeline state whose feedback-loop counter does not exceed
the configured maximum, the transition out of Review is `"approved"` exactly
when the quality score is strictly greater than the threshold selected by the
environment mode (DEV threshold 75, PROD threshold 95, DEV lower than PROD),
and otherwise the transition is `"rejected"`, whose conditional edge loops
back to the `dev_squad` (Generate) node. -/
theorem route_council_threshold_by_mode (state : NexusFactoryState)
    (hloop : state.feedback_loop_count ≤ defaultSettings.max_feedback_loops)
    (henv : state.env_mode = "DEV" ∨ state.env_mode = "PROD") :
    (defaultSettings.dev_quality_threshold = 75 ∧
      defaultSettings.prod_quality_threshold = 95 ∧
      defaultSettings.dev_quality_threshold < defaultSettings.prod_quality_threshold) ∧
    (route_council defaultSettings state = "approved" ↔
      state.quality_score > (if state.env_mode = "DEV" then 75 else 95)) ∧
    (route_council defaultSettings state = "rejected" ↔
      ¬ state.quality_score > (if state.env_mode = "DEV" then 75 else 95)) ∧
    councilConditionalEdges "rejected" = some (GraphTarget.toNode "dev_squad") := by
  have hnot : ¬ state.feedback_loop_count > (5 : Nat) := Nat.not_lt.mpr hloop
  refine ⟨⟨rfl, rfl, by decide⟩, ?_, ?_, by decide⟩ <;>
    rcases henv with h | h <;>
      by_cases hs : state.quality_score > (75 : Nat) <;>
        by_cases hs2 : state.quality_score > (95 : Nat) <;>
          simp [route_council, defaultSettings, hnot, h, hs, hs2]

/-- Witness for C2: DEV mode, loop count 1 within bound; at score 80 the
route is `"approved"`, matching the threshold comparison. -/
theorem route_council_threshold_by_mode_witness :
    ({ baseState with feedback_loop_count := 1, quality_score := 80
      } : NexusFactoryState).feedback_loop_count ≤
      defaultSettings.max_feedback_loops ∧
    ((route_council defaultSettings
        { baseState with feedback_loop_count := 1, quality_score := 80 } = "approved" ↔
      ({ baseState with feedback_loop_count := 1, quality_score := 80
        } : NexusFactoryState).quality_score >
        (if ({ baseState with feedback_loop_count := 1, quality_score := 80
          } : NexusFactoryState).env_mode = "DEV" then 75 else 95))) :=
  ⟨by decide,
   (route_council_threshold_by_mode
     { baseState with feedback_loop_count := 1, quality_score := 80 }
     (by decide) (Or.inl rfl)).2.1⟩

/-- C3: each execution of the Review (Council) stage increases the state's
`feedback_loop_count` by exactly one, irrespective of the final score or
approval outcome (for every oracle); after `n` completed Review executions
starting from a counter of 0, the counter equals `n`. -/
theorem council_increments_loop_count :
    (∀ (oracle : RouterOracle) (state : NexusFactoryState),
      (council_execute oracle state).feedback_loop_count =
        state.feedback_loop_count + 1) ∧
    (∀ (oracles : List RouterOracle) (state : NexusFactoryState),
      (councilRun oracles state).feedback_loop_count =
        state.feedback_loop_count + oracles.length) ∧
    (∀ (oracles : List RouterOracle) (state : NexusFactoryState),
      state.feedback_loop_count = 0 →
      (councilRun oracles state).feedback_loop_count = oracles.length) := by
  have h1 : ∀ (oracle : RouterOracle) (state : NexusFactoryState),
      (council_execute oracle state).feedback_loop_count =
        state.feedback_loop_count + 1 := fun _ _ => rfl
  have h2 : ∀ (oracles : List RouterOracle) (state : NexusFactoryState),
      (councilRun oracles state).feedback_loop_count =
        state.feedback_loop_count + oracles.length := by
    intro oracles
    induction oracles with
    | nil => intro state; rfl
    | cons o t ih =>
      intro state
      have hstep : (councilStep o state).feedback_loop_count =
          state.feedback_loop_count + 1 := rfl
      calc (councilRun (o :: t) state).feedback_loop_count
          = (councilRun t (councilStep o state)).feedback_loop_count := rfl
        _ = (councilStep o state).feedback_loop_count + t.length := ih _
        _ = state.feedback_loop_count + 1 + t.length := by rw [hstep]
        _ = state.feedback_loop_count + (o :: t).length := by
            simp [List.length_cons]; omega
  exact ⟨h1, h2, fun oracles state h0 => by rw [h2 oracles state, h0, Nat.zero_add]⟩

/-- Witness for C3: two Review executions (with failing-network oracles)
starting from counter 0 leave the counter at 2. -/
theorem council_increments_loop_count_witness :
    baseState.feedback_loop_count = 0 ∧
    (councilRun [errOracle, errOracle] baseState).feedback_loop_count = 2 :=
  ⟨rfl, council_increments_loop_count.2.2 [errOracle, errOracle] baseState rfl⟩

/-- C4: evaluation of the usage merge at a failing input.  A normalized
Anthropic router result reporting 10 prompt and 20 completion tokens, merged
into zeroed counters, leaves `prompt_tokens` and `completion_tokens` at 0
(instead of 10 and 20): `update_token_usage` reads the Gemini-style incoming
keys `prompt_token_count`/`candidates_token_count`, which the router's
normalized usage dicts never carry; only `total_tokens` accumulates. -/
theorem update_token_usage_drops_router_counts :
    update_token_usage zeroUsage (anthropicUsageFormatted 10 20) =
      [("prompt_tokens", 0), ("completion_tokens", 0), ("total_tokens", 30)] ∧
    pyDictGet (anthropicUsageFormatted 10 20) "prompt_tokens" 0 = 10 ∧
    pyDictGet (anthropicUsageFormatted 10 20) "completion_tokens" 0 = 20 := by
  refine ⟨?_, rfl, rfl⟩
  rfl

/-- The reviewer field of a council opinion is the fixed reviewer name,
whether the call succeeded or raised. -/
theorem reviewOne_reviewer (oracle : RouterOracle) (spec current_code : String)
    (previous_reviews : List ReviewerOpinion) (r : String × String) :
    (reviewOne oracle spec current_code previous_reviews r).reviewer = r.1 := by
  unfold reviewOne
  split <;> rfl

/-- C5: when any single reviewer's model call raises during Phase 1, the
Council substitutes the sentinel opinion (score 50, model `"error"`, the one
concern `"Review error"`) for that reviewer, still produces one opinion per
reviewer — three in total, in the fixed reviewer order GPT-5, Gemini,
Claude — and the review list is total (arbitration always receives it). -/
theorem gather_reviews_sentinel_on_failure (oracle : RouterOracle)
    (spec current_code : String) (previous_reviews : List ReviewerOpinion)
    (i : Nat) (e : String) (hi : i < reviewers.length)
    (hfail : oracle reviewers[i].2
        (reviewPrompt spec current_code previous_reviews) reviewSystemPrompt =
      Except.error e) :
    (gather_independent_reviews oracle spec current_code previous_reviews).length = 3 ∧
    (gather_independent_reviews oracle spec current_code previous_reviews).map
        ReviewerOpinion.reviewer = ["GPT-5", "Gemini", "Claude"] ∧
    (gather_independent_reviews oracle spec current_code previous_reviews)[i]? =
      some { reviewer := reviewers[i].1
             model := "error"
             score := 50
             reasoning := "Review failed: " ++ e.take 50
             concerns := ["Review error"] } := by
  refine ⟨?_, ?_, ?_⟩
  · simp [gather_independent_reviews, reviewers]
  · simp [gather_independent_reviews, reviewers, reviewOne_reviewer]
  · rw [gather_independent_reviews, List.getElem?_map, List.getElem?_eq_getElem hi]
    show some _ = some _
    unfold reviewOne
    rw [hfail]

/-- A concrete oracle whose Gemini reviewer call raises and whose other
calls answer with a well-formed review. -/
def geminiDownOracle : RouterOracle := fun agent_name _ _ =>
  if agent_name = "council_gemini" then Except.error "boom"
  else Except.ok ("SCORE: 90\nREASONING: solid work overall\nCONCERNS: None", [])

set_option maxRecDepth 4000 in
/-- Witness for C5: with the Gemini call raising, the council still returns
three opinions and slot 1 is the sentinel. -/
theorem gather_reviews_sentinel_on_failure_witness :
    geminiDownOracle reviewers[1].2 (reviewPrompt "demo spec" "" [])
        reviewSystemPrompt = Except.error "boom" ∧
    (gather_independent_reviews geminiDownOracle "demo spec" "" []).length = 3 ∧
    (gather_independent_reviews geminiDownOracle "demo spec" "" []).map
        ReviewerOpinion.reviewer = ["GPT-5", "Gemini", "Claude"] ∧
    (gather_independent_reviews geminiDownOracle "demo spec" "" [])[1]? =
      some { reviewer := "Gemini"
             model := "error"
             score := 50
             reasoning := "Review failed: boom"
             concerns := ["Review error"] } :=
  ⟨rfl,
   (gather_reviews_sentinel_on_failure geminiDownOracle "demo spec" "" [] 1 "boom"
     (by decide) rfl).1,
   (gather_reviews_sentinel_on_failure geminiDownOracle "demo spec" "" [] 1 "boom"
     (by decide) rfl).2.1,
   (gather_reviews_sentinel_on_failure geminiDownOracle "demo spec" "" [] 1 "boom"
     (by decide) rfl).2.2⟩

/-- C8: when the Phase-2 arbitration model call fails, the Council's final
score is the integer-floor average of the Phase-1 reviewer scores (their sum
integer-divided by the number of opinions). -/
theorem arbitration_failure_floor_average (oracle : RouterOracle) (spec : String)
    (opinions : List ReviewerOpinion) (e : String)
    (hne : opinions ≠ [])
    (hfail : oracle "council_claude" (arbitrationPrompt spec opinions)
        arbitrationSystemPrompt = Except.error e) :
    (arbitrate_reviews oracle spec opinions).1 =
      (opinions.map ReviewerOpinion.score).sum / opinions.length := by
  unfold arbitrate_reviews
  rw [hfail]

/-- A concrete set of three Phase-1 opinions. -/
def threeOpinions : List ReviewerOpinion :=
  [{ reviewer := "GPT-5", model := "azure-openai/gpt-5", score := 80,
     reasoning := "fine", concerns := [] },
   { reviewer := "Gemini", model := "error", score := 50,
     reasoning := "Review failed: boom", concerns := ["Review error"] },
   { reviewer := "Claude", model := "claude-sonnet-4-20250514", score := 90,
     reasoning := "good", concerns := [] }]

/-- Witness for C8: with scores 80, 50, 90 and a failing arbitration call,
the final score is `(80 + 50 + 90) // 3 = 73`. -/
theorem arbitration_failure_floor_average_witness :
    threeOpinions ≠ [] ∧
    errOracle "council_claude" (arbitrationPrompt "demo spec" threeOpinions)
        arbitrationSystemPrompt = Except.error "network down" ∧
    (arbitrate_reviews errOracle "demo spec" threeOpinions).1 = 73 :=
  ⟨by decide, rfl,
   arbitration_failure_floor_average errOracle "demo spec" threeOpinions
     "network down" (by decide) rfl⟩

/-- Counterexample for C6: `"great work 42"` contains no `SCORE:` or
`FINAL_SCORE:` marker on any line, yet `_extract_score` returns 42, not 70
(the fallback scrapes any digits from the first 200 characters). -/
theorem extract_score_markerless_counterexample :
    hasScoreMarker "great work 42" = false ∧
    extract_score "great work 42" = 42 ∧ (42 : Nat) ≠ 70 :=
  ⟨rfl, rfl, by decide⟩

/-- C6 (amended): for every input text with no `SCORE:`/`FINAL_SCORE:`
marker line and no digit among its first 200 characters, the score
extraction returns exactly 70. -/
theorem extract_score_markerless_default (response : String)
    (hm : hasScoreMarker response = false)
    (hd : digitsOf (response.take 200) = []) :
    extract_score response = 70 := by
  unfold extract_score
  have hall : ∀ line ∈ pyLines response, markerLine line = false := by
    intro line hline
    have := List.any_eq_false.mp hm line hline
    simpa using this
  have hfind : (pyLines response).find?
      (fun line => markerLine line && !(digitsOf line).isEmpty) = none := by
    rw [List.find?_eq_none]
    intro line hline
    simp [hall line hline]
  rw [hfind]
  simp [hd]

/-- Witness for C6 (amended): a digit-free, marker-free text parses to 70. -/
theorem extract_score_markerless_default_witness :
    hasScoreMarker "all good here" = false ∧
    digitsOf ("all good here".take 200) = [] ∧
    extract_score "all good here" = 70 :=
  ⟨rfl, rfl, extract_score_markerless_default "all good here" rfl rfl⟩

/-- Counterexample for C7: on the marker line `"1. SCORE: 5"` the digits
after the marker give 5, but `_extract_score` concatenates all digits of the
line (including the leading `1`) and returns 15. -/
theorem extract_score_digits_counterexample :
    specScoreAfterMarker "1. SCORE: 5" = some 5 ∧
    extract_score "1. SCORE: 5" = 15 ∧ (15 : Nat) ≠ 5 :=
  ⟨rfl, rfl, by decide⟩

/-- C7 (amended): for every input text the score extraction is total and
returns a value in [0,100]; on the first line carrying a marker and at least
one digit, the concatenation of all digits of that line, clamped, becomes
the score. -/
theorem extract_score_always_bounded (response : String) :
    extract_score response ≤ 100 ∧
    (∀ line, (pyLines response).find?
        (fun l => markerLine l && !(digitsOf l).isEmpty) = some line →
      extract_score response = min 100 (max 0 (natOfDigits (digitsOf line)))) := by
  constructor
  · unfold extract_score
    cases hfind : (pyLines response).find?
        (fun l => markerLine l && !(digitsOf l).isEmpty) with
    | some line => exact Nat.min_le_left _ _
    | none =>
      dsimp only
      split
      · decide
      · exact Nat.min_le_left _ _
  · intro line hfind
    unfold extract_score
    rw [hfind]

/-- Witness for C7 (amended): `"SCORE: 85"` is a marker line with digits and
parses to 85, within bounds. -/
theorem extract_score_always_bounded_witness :
    extract_score "SCORE: 85" ≤ 100 ∧
    (pyLines "SCORE: 85").find?
        (fun l => markerLine l && !(digitsOf l).isEmpty) = some "SCORE: 85" ∧
    extract_score "SCORE: 85" = 85 :=
  ⟨(extract_score_always_bounded "SCORE: 85").1, rfl,
   (extract_score_always_bounded "SCORE: 85").2 "SCORE: 85" rfl⟩

/-- With pairwise-distinct ids, filtering out one id removes at most one
element. -/
theorem length_sub_filter_ne_le_one (lessons : List Lesson) (lesson_id : String)
    (h : (lessons.map Lesson.id).Nodup) :
    lessons.length - (lessons.filter (fun l => l.id != lesson_id)).length ≤ 1 := by
  induction lessons with
  | nil => simp
  | cons l t ih =>
    rw [List.map_cons, List.nodup_cons] at h
    obtain ⟨hhead, htail⟩ := h
    by_cases hl : l.id = lesson_id
    · have hall : t.filter (fun x => x.id != lesson_id) = t := by
        apply List.filter_eq_self.mpr
        intro x hx
        rw [bne_iff_ne]
        intro hxid
        apply hhead
        rw [hl, ← hxid]
        exact List.mem_map_of_mem Lesson.id hx
      simp [List.filter_cons, hl, hall]
    · have hkeep : (l.id != lesson_id) = true := bne_iff_ne.mpr hl
      simp only [List.filter_cons, hkeep, if_pos, List.length_cons]
      have hle := List.length_filter_le (fun x => x.id != lesson_id) t
      have := ih htail
      omega

/-- C9: `delete_lesson` removes at most one lesson matching the given id
(the store's ids being pairwise distinct), persists exactly when a removal
occurred, returns `true` exactly when some stored lesson has that id, and
keeps every lesson with a different id unchanged (and introduces nothing
else). -/
theorem delete_lesson_spec (lessons : List Lesson) (lesson_id : String)
    (hid : (lessons.map Lesson.id).Nodup) :
    lessons.length - (delete_lesson lessons lesson_id).1.length ≤ 1 ∧
    ((delete_lesson lessons lesson_id).2.1 = true ↔ ∃ l ∈ lessons, l.id = lesson_id) ∧
    (delete_lesson lessons lesson_id).2.2 = (delete_lesson lessons lesson_id).2.1 ∧
    (∀ l ∈ lessons, l.id ≠ lesson_id → l ∈ (delete_lesson lessons lesson_id).1) ∧
    (∀ l ∈ (delete_lesson lessons lesson_id).1, l ∈ lessons ∧ l.id ≠ lesson_id) := by
  have hlt : (lessons.filter (fun l => l.id != lesson_id)).length < lessons.length ↔
      ∃ l ∈ lessons, l.id = lesson_id := by
    rw [List.length_filter_lt_length_iff_exists]
    constructor
    · rintro ⟨x, hx, hne⟩
      exact ⟨x, hx, by simpa using hne⟩
    · rintro ⟨x, hx, heq⟩
      exact ⟨x, hx, by simp [heq]⟩
  by_cases hc : (lessons.filter (fun l => l.id != lesson_id)).length < lessons.length
  · have hdel : delete_lesson lessons lesson_id =
        (lessons.filter (fun l => l.id != lesson_id), true, true) := by
      simp [delete_lesson, hc]
    rw [hdel]
    refine ⟨length_sub_filter_ne_le_one lessons lesson_id hid, ?_, rfl, ?_, ?_⟩
    · simpa using hlt.mp hc
    · intro l hl hne
      exact List.mem_filter.mpr ⟨hl, bne_iff_ne.mpr hne⟩
    · intro l hl
      have := List.mem_filter.mp hl
      exact ⟨this.1, bne_iff_ne.mp this.2⟩
  · have hdel : delete_lesson lessons lesson_id =
        (lessons.filter (fun l => l.id != lesson_id), false, false) := by
      simp [delete_lesson, hc]
    rw [hdel]
    refine ⟨length_sub_filter_ne_le_one lessons lesson_id hid, ?_, rfl, ?_, ?_⟩
    · simp only [Bool.false_eq_true, false_iff]
      intro hex
      exact hc (hlt.mpr hex)
    · intro l hl hne
      exact List.mem_filter.mpr ⟨hl, bne_iff_ne.mpr hne⟩
    · intro l hl
      have := List.mem_filter.mp hl
      exact ⟨this.1, bne_iff_ne.mp this.2⟩

/-- Two concrete stored lessons with distinct ids. -/
def lessonA : Lesson :=
  { id := "id-a", topic := "retry policy", context := "spec excerpt a",
    outcome := "Success", solution := "add backoff", timestamp := "t1" }

/-- A second concrete stored lesson. -/
def lessonB : Lesson :=
  { id := "id-b", topic := "status snapshots", context := "spec excerpt b",
    outcome := "Success", solution := "emit final snapshot", timestamp := "t2" }

/-- Witness for C9: deleting `"id-a"` from a two-lesson store removes exactly
that lesson, persists, and returns `true`; `lessonB` survives. -/
theorem delete_lesson_spec_witness :
    ([lessonA, lessonB].map Lesson.id).Nodup ∧
    ([lessonA, lessonB].length - (delete_lesson [lessonA, lessonB] "id-a").1.length ≤ 1 ∧
    ((delete_lesson [lessonA, lessonB] "id-a").2.1 = true ↔
      ∃ l ∈ [lessonA, lessonB], l.id = "id-a") ∧
    (delete_lesson [lessonA, lessonB] "id-a").2.2 =
      (delete_lesson [lessonA, lessonB] "id-a").2.1 ∧
    (∀ l ∈ [lessonA, lessonB], l.id ≠ "id-a" →
      l ∈ (delete_lesson [lessonA, lessonB] "id-a").1) ∧
    (∀ l ∈ (delete_lesson [lessonA, lessonB] "id-a").1,
      l ∈ [lessonA, lessonB] ∧ l.id ≠ "id-a")) :=
  ⟨by decide, delete_lesson_spec [lessonA, lessonB] "id-a" (by decide)⟩

/-- Membership is preserved by the descending insertion step. -/
theorem mem_insertByDesc {α : Type} (key : α → Nat) (x y : α) (l : List α) :
    y ∈ insertByDesc key x l ↔ y = x ∨ y ∈ l := by
  induction l with
  | nil => simp [insertByDesc]
  | cons z t ih =>
    by_cases h : key z ≤ key x <;> simp [insertByDesc, h, ih] <;> tauto

/-- The descending insertion step adds exactly one element. -/
theorem length_insertByDesc {α : Type} (key : α → Nat) (x : α) (l : List α) :
    (insertByDesc key x l).length = l.length + 1 := by
  induction l with
  | nil => rfl
  | cons z t ih => by_cases h : key z ≤ key x <;> simp [insertByDesc, h, ih]

/-- The stable descending sort is a permutation in the membership sense. -/
theorem mem_pySortDesc {α : Type} (key : α → Nat) (y : α) (l : List α) :
    y ∈ pySortDesc key l ↔ y ∈ l := by
  induction l with
  | nil => simp [pySortDesc]
  | cons z t ih => simp [pySortDesc, mem_insertByDesc, ih]

/-- The stable descending sort preserves length. -/
theorem length_pySortDesc {α : Type} (key : α → Nat) (l : List α) :
    (pySortDesc key l).length = l.length := by
  induction l with
  | nil => rfl
  | cons z t ih => simp [pySortDesc, length_insertByDesc, ih]

/-- A formatted retrieval result (which starts with the `###` header) is
never one of the `N`-initial sentinel strings. -/
theorem header_append_ne (s t : String) (ht : t.data[0]? = some 'N') :
    "### PREVIOUS LESSONS LEARNED:\n" ++ s ≠ t := by
  intro h
  have hd := congrArg String.data h
  rw [String.data_append] at hd
  have h0 := congrArg (fun l => l[0]?) hd
  simp only at h0
  rw [List.getElem?_append_left
    (by decide : 0 < ("### PREVIOUS LESSONS LEARNED:\n").data.length)] at h0
  rw [ht] at h0
  have hh : ("### PREVIOUS LESSONS LEARNED:\n").data[0]? = some '#' := by decide
  rw [hh] at h0
  simp at h0

/-- Counterexample for C10: a lesson whose topic is the non-empty string
`" "` (a single space) has no query tokens; retrieving with that exact topic
as the query returns the zero-match sentinel, not a result containing the
lesson. -/
theorem retrieve_whitespace_topic_counterexample :
    (" " : String) ≠ "" ∧
    retrieve_with_keywords
      (store_lesson [] "id-1" "t0" " " "some context" "Success" "fix").1 " " 5 =
      "No prior lessons found for this topic." :=
  ⟨by decide, rfl⟩

/-- C10 (amended): after storing a lesson whose topic contains at least one
whitespace-delimited token, retrieving with that exact topic as the query on
the keyword-matching path, over a store holding fewer than top-K other
lessons, returns a formatted result that includes that lesson among the
top-K, and never a `no lessons found` sentinel. -/
theorem store_then_retrieve_topic_hit (lessons : List Lesson)
    (lesson_id timestamp topic context outcome solution : String) (top_k : Nat)
    (htok : pySplitWs (pyLower topic) ≠ [])
    (hsize : lessons.length < top_k) :
    ({ id := lesson_id, topic := topic, context := context, outcome := outcome,
       solution := solution, timestamp := timestamp } : Lesson) ∈
      (topLessons
        (store_lesson lessons lesson_id timestamp topic context outcome solution).1
        topic top_k).map Prod.fst ∧
    retrieve_with_keywords
      (store_lesson lessons lesson_id timestamp topic context outcome solution).1
      topic top_k ≠ "No prior lessons found for this topic." ∧
    retrieve_context_keywords
      (store_lesson lessons lesson_id timestamp topic context outcome solution).1
      topic top_k ≠ "No prior lessons found." := by
  set L : Lesson := ⟨lesson_id, topic, context, outcome, solution, timestamp⟩ with hL
  set st : List Lesson := lessons ++ [L] with hst
  have hstore :
      (store_lesson lessons lesson_id timestamp topic context outcome solution).1 = st := rfl
  have hsub : wordSet topic ⊆ wordSet topic ∩ (wordSet L.topic ∪ wordSet L.context) := by
    intro w hw
    exact Finset.mem_inter.mpr ⟨hw, Finset.mem_union_left _ hw⟩
  have hpos : 0 < lessonMatches (wordSet topic) L := by
    unfold lessonMatches
    have hne : (wordSet topic).Nonempty := by
      obtain ⟨w, hw⟩ := List.exists_mem_of_ne_nil _ htok
      exact ⟨w, List.mem_toFinset.mpr hw⟩
    calc 0 < (wordSet topic).card := Finset.card_pos.mpr hne
      _ ≤ _ := Finset.card_le_card hsub
  have hmemL : L ∈ st := by simp [hst]
  have hrel : (L, lessonMatches (wordSet topic) L) ∈ relevantLessons st topic := by
    unfold relevantLessons
    apply List.mem_filter.mpr
    refine ⟨List.mem_map_of_mem _ hmemL, ?_⟩
    simpa using hpos
  have hsorted : (L, lessonMatches (wordSet topic) L) ∈
      pySortDesc (fun p => p.2) (relevantLessons st topic) :=
    (mem_pySortDesc _ _ _).mpr hrel
  have hlen : (pySortDesc (fun p => p.2) (relevantLessons st topic)).length ≤ top_k := by
    rw [length_pySortDesc]
    have h1 : (relevantLessons st topic).length ≤ st.length := by
      unfold relevantLessons
      calc (List.filter _ _).length ≤ (st.map _).length := List.length_filter_le _ _
        _ = st.length := List.length_map _ _
    have h2 : st.length = lessons.length + 1 := by simp [hst]
    omega
  have htop : topLessons st topic top_k =
      pySortDesc (fun p => p.2) (relevantLessons st topic) := by
    unfold topLessons
    exact List.take_of_length_le hlen
  have hmemTop : (L, lessonMatches (wordSet topic) L) ∈ topLessons st topic top_k := by
    rw [htop]
    exact hsorted
  have hne : (topLessons st topic top_k).isEmpty = false := by
    simpa [List.isEmpty_iff] using List.ne_nil_of_mem hmemTop
  refine ⟨?_, ?_, ?_⟩
  · rw [hstore]
    exact List.mem_map_of_mem Prod.fst hmemTop
  · rw [hstore]
    unfold retrieve_with_keywords
    simp only [hne, Bool.false_eq_true, if_false]
    exact header_append_ne _ _ (by decide)
  · rw [hstore]
    unfold retrieve_context_keywords
    have hstne : st.isEmpty = false := by
      simpa [List.isEmpty_iff] using List.ne_nil_of_mem hmemL
    simp only [hstne, Bool.false_eq_true, if_false]
    unfold retrieve_with_keywords
    simp only [hne, Bool.false_eq_true, if_false]
    exact header_append_ne _ _ (by decide)

/-- Witness for C10 (amended): storing a lesson with topic `"alpha beta"`
into an empty store and retrieving with query `"alpha beta"`, top-K 5,
returns that lesson among the formatted results. -/
theorem store_then_retrieve_topic_hit_witness :
    pySplitWs (pyLower "alpha beta") ≠ [] ∧
    ([] : List Lesson).length < 5 ∧
    (({ id := "id-9", topic := "alpha beta", context := "demo context",
        outcome := "Success", solution := "add tests", timestamp := "t9" } : Lesson) ∈
      (topLessons
        (store_lesson [] "id-9" "t9" "alpha beta" "demo context" "Success" "add tests").1
        "alpha beta" 5).map Prod.fst ∧
    retrieve_with_keywords
      (store_lesson [] "id-9" "t9" "alpha beta" "demo context" "Success" "add tests").1
      "alpha beta" 5 ≠ "No prior lessons found for this topic." ∧
    retrieve_context_keywords
      (store_lesson [] "id-9" "t9" "alpha beta" "demo context" "Success" "add tests").1
      "alpha beta" 5 ≠ "No prior lessons found.") :=
  ⟨by decide, by decide,
   store_then_retrieve_topic_hit [] "id-9" "t9" "alpha beta" "demo context"
     "Success" "add tests" 5 (by decide) (by decide)⟩

end NexusPrime
